import Mathlib

/-!
# Verification of the meapi hydration + validation core

This file gives a shallow embedding, in Lean 4, of the parts of the
meapi repository that the specification's claims are about:

* the contact / call-log validators `get_contacts` and `get_calls`
  from `meapi/account.py`;
* the hydration base `MeModel` from `meapi/models/me_model.py`
  (`new_from_dict`, `as_dict`, `as_json`, `__setattr__`);
* the mutable-profile protocol from `meapi/models/profile.py`
  (`Profile.__setattr__` and `Profile.refresh`);
* the date parsing helper `parse_date` from `meapi/utils/helpers.py`,
  and the concrete models `Contact` (`meapi/models/others.py`) and
  `Notification` (`meapi/models/notification.py`) used to settle the
  serialization round-trip claim.

Python values flowing through this code are JSON scalars, `None`,
`datetime.date` / `datetime.datetime` values produced by `parse_date`,
and (for models) nested model objects and lists.  The claims under
verification only exercise scalar-valued fields, so the embedded value
domain `PyVal` covers exactly the scalar values; the `as_dict` branches
for lists and nested models are identities / unreachable on this domain
and are documented where they are elided.
-/

/-- The embedded domain of Python values that the verified code paths
manipulate: `None`, booleans, integers, strings, and the
`datetime.date` / (timezone-aware) `datetime.datetime` values produced
by `meapi.utils.helpers.parse_date`.  A `datetime` carries its UTC
offset in minutes, as Python timezone-aware datetimes do. -/
inductive PyVal where
  | none
  | bool (b : Bool)
  | int (n : Int)
  | str (s : String)
  | date (y m d : Nat)
  | datetime (y mo d h mi s : Nat) (offMin : Int)
deriving DecidableEq

/-- Python truthiness (`bool(v)`) on the embedded value domain:
`None` and empty / zero values are falsy, dates are always truthy. -/
def truthy : PyVal → Bool
  | .none => false
  | .bool b => b
  | .int n => n != 0
  | .str s => s != ""
  | .date _ _ _ => true
  | .datetime _ _ _ _ _ _ _ => true

/-- Left-pad the decimal representation of `n` with zeros to `w` digits,
as Python does when printing date / datetime components. -/
def padNum (w : Nat) (n : Nat) : String :=
  let s := toString n
  if s.length < w then String.mk (List.replicate (w - s.length) '0') ++ s else s

/-- Python's rendering of a UTC offset as `+HH:MM` / `-HH:MM`
(`datetime.timezone.utc` prints as `+00:00`). -/
def offsetStr (offMin : Int) : String :=
  let sign := if offMin < 0 then "-" else "+"
  let a := offMin.natAbs
  sign ++ padNum 2 (a / 60) ++ ":" ++ padNum 2 (a % 60)

/-- Python `str(v)` on the embedded value domain.  `str` of an aware
datetime uses a space between the date and time parts and the `+HH:MM`
offset form, e.g. `2021-08-24 10:02:45+00:00`. -/
def pyStr : PyVal → String
  | .none => "None"
  | .bool b => if b then "True" else "False"
  | .int n => toString n
  | .str s => s
  | .date y m d => padNum 4 y ++ "-" ++ padNum 2 m ++ "-" ++ padNum 2 d
  | .datetime y mo d h mi s offMin =>
      padNum 4 y ++ "-" ++ padNum 2 mo ++ "-" ++ padNum 2 d ++ " " ++
      padNum 2 h ++ ":" ++ padNum 2 mi ++ ":" ++ padNum 2 s ++ offsetStr offMin

/-- A Python `dict` with string keys, as an insertion-ordered
association list (Python dicts preserve insertion order). -/
abbrev PyDict := List (String × PyVal)

/-- `d[k]` lookup returning `Option`: distinguishes a missing key from
a key bound to `None`. -/
def dictFind : PyDict → String → Option PyVal
  | [], _ => Option.none
  | (k', v) :: rest, k => if k' = k then some v else dictFind rest k

/-- Python `d.get(k)` / `getattr(obj, k, None)`: the bound value, or
`None` when the key is absent. -/
def dictGet (d : PyDict) (k : String) : PyVal :=
  (dictFind d k).getD PyVal.none

/-- Python `d[k] = v`: update the existing binding in place (keeping
its position) or append a new binding at the end. -/
def dictSet : PyDict → String → PyVal → PyDict
  | [], k, v => [(k, v)]
  | (k', v') :: rest, k, v =>
      if k' = k then (k, v) :: rest else (k', v') :: dictSet rest k v

/-- An element of a caller-supplied `List[dict]`: either a dict or any
non-dict value (the validators silently skip non-dicts via their
`isinstance(..., dict)` checks). -/
inductive PyItem where
  | dict (d : PyDict)
  | nondict
deriving DecidableEq

deriving instance DecidableEq for Except

/-! ## Validators from `meapi/account.py` -/

/-- The message of the `MeException` raised by `get_contacts` when no
valid contact survives the filter. -/
def contactsErrMsg : String :=
  "Valid contacts not found! check this example for valid contact syntax: " ++
  "https://gist.github.com/david-lev/b158f1cc0cc783dbb13ff4b54416ceec#file-contacts-py"

/-- The message of the `MeException` raised by `get_calls` when no
call entry was appended to the result list. -/
def callsErrMsg : String :=
  "Valid calls not found! check this example for valid call syntax: " ++
  "https://gist.github.com/david-lev/b158f1cc0cc783dbb13ff4b54416ceec#file-calls_log-py"

/-- Loop body of `get_contacts` from `meapi/account.py`: a dict is
appended to the accumulator exactly when both `contact.get('name')`
and `contact.get('phone_number')` are truthy; non-dicts are skipped. -/
def get_contacts_loop : List PyItem → List PyDict → List PyDict
  | [], acc => acc
  | .nondict :: rest, acc => get_contacts_loop rest acc
  | .dict d :: rest, acc =>
      if truthy (dictGet d "name") && truthy (dictGet d "phone_number") then
        get_contacts_loop rest (acc ++ [d])
      else
        get_contacts_loop rest acc

/-- `get_contacts` from `meapi/account.py` (the contacts validator):
filter the input, and raise `MeException` when nothing survives. -/
def get_contacts (contacts : List PyItem) : Except String (List PyDict) :=
  let contacts_list := get_contacts_loop contacts []
  if contacts_list = [] then .error contactsErrMsg else .ok contacts_list

/-- The closed set of accepted call types in `get_calls`. -/
def callTypes : List PyVal := [.str "incoming", .str "missed", .str "outgoing"]

/-- First per-entry check of the `get_calls` loop: when `name` or
`phone_number` is falsy, default `name` to `str(phone_number)` if the
latter is truthy, else raise `MeException("Phone number must be provided!!")`. -/
def fixName (call : PyDict) : Except String PyDict :=
  if !truthy (dictGet call "name") || !truthy (dictGet call "phone_number") then
    if truthy (dictGet call "phone_number") then
      .ok (dictSet call "name" (.str (pyStr (dictGet call "phone_number"))))
    else
      .error "Phone number must be provided!!"
  else
    .ok call

/-- The `duration` defaulting step of the `get_calls` loop:
a falsy `duration` becomes `123`. -/
def setDurationDefault (c1 : PyDict) : PyDict :=
  if truthy (dictGet c1 "duration") then c1 else dictSet c1 "duration" (.int 123)

/-- The `tag` defaulting step of the `get_calls` loop:
a falsy `tag` becomes `None`. -/
def setTagDefault (c2 : PyDict) : PyDict :=
  if truthy (dictGet c2 "tag") then c2 else dictSet c2 "tag" PyVal.none

/-- The `duration` / `tag` defaulting steps of the `get_calls` loop,
in source order. -/
def setDefaults (c1 : PyDict) : PyDict :=
  setTagDefault (setDurationDefault c1)

/-- The final `called_at` step of the `get_calls` loop: a truthy
`called_at` leaves the accumulator untouched (the entry is *not*
appended); a falsy one is defaulted to the sentinel timestamp and the
entry is appended. -/
def appendIfDefaulted (acc : List PyDict) (c3 : PyDict) : List PyDict :=
  if truthy (dictGet c3 "called_at") then acc
  else acc ++ [dictSet c3 "called_at" (.str "2022-04-18T05:59:07Z")]

/-- Body of the `get_calls` loop for a single dict entry. -/
def processDict (acc : List PyDict) (call : PyDict) : Except String (List PyDict) :=
  match fixName call with
  | .error e => .error e
  | .ok c1 =>
    if dictGet c1 "type" ∉ callTypes then
      .error ("No such call type as " ++ pyStr (dictGet c1 "type") ++ "!")
    else
      .ok (appendIfDefaulted acc (setDefaults c1))

/-- Per-entry body of the `get_calls` loop from `meapi/account.py`,
acting on the accumulator `acc` (`calls_list` in the source):
non-dicts are skipped; a missing/falsy `name` is defaulted from a
truthy `phone_number` (else `MeException`); an unknown `type` raises;
falsy `duration` / `tag` / `called_at` are defaulted — and the entry is
appended to `acc` only inside the `called_at`-defaulting branch. -/
def processCall (acc : List PyDict) : PyItem → Except String (List PyDict)
  | .nondict => .ok acc
  | .dict call => processDict acc call

/-- The `get_calls` loop over all entries, threading the accumulator. -/
def get_calls_loop : List PyItem → List PyDict → Except String (List PyDict)
  | [], acc => .ok acc
  | c :: rest, acc =>
    match processCall acc c with
    | .error e => .error e
    | .ok acc' => get_calls_loop rest acc'

/-- `get_calls` from `meapi/account.py` (the call-log validator). -/
def get_calls (calls : List PyItem) : Except String (List PyDict) :=
  match get_calls_loop calls [] with
  | .error e => .error e
  | .ok calls_list =>
      if calls_list = [] then .error callsErrMsg else .ok calls_list

/-- The filter that `get_contacts` implements: keep a dict exactly when
both its `name` and its `phone_number` are truthy (present and
non-empty / non-zero); drop non-dicts. -/
def keepContact : PyItem → Option PyDict
  | .nondict => Option.none
  | .dict d =>
      if truthy (dictGet d "name") && truthy (dictGet d "phone_number") then
        some d
      else
        Option.none


/-! ## Hydration base: `MeModel.new_from_dict` from `meapi/models/me_model.py`

`new_from_dict(cls, data, _client=None, **kwargs)` is generic over the
concrete model class; the class only enters through
`cls._init_parameters.keys()` (the accepted-field set computed by the
`_ParameterReader` metaclass from the constructor signature).  The
embedding therefore takes that set as the explicit argument `attrs`.
The owning-client reference is embedded as an opaque `PyVal`.  The
process-wide `IGNORED_KEYS` list is threaded explicitly, and the field
names passed to `_logger.warning` in a call are collected in order. -/

/-- Result of one `new_from_dict` call: the caller's `data` mapping as
it stands after the call (the source mutates it in place), the keyword
arguments handed to `cls(**json_data)` (`Option.none` when `data` was
empty and the factory returned `None`), the updated `IGNORED_KEYS`
list, and the field names warned about during this call. -/
structure HydResult where
  callerData : PyDict
  ctorArgs : Option PyDict
  ignored : List String
  warnings : List String
deriving DecidableEq

/-- The `if '_client' in cls_attrs: data['_client'] = _client` step:
it mutates the *caller's* mapping, before `data.copy()` is taken. -/
def withClient (attrs : List String) (data : PyDict) (client : PyVal) : PyDict :=
  if "_client" ∈ attrs then dictSet data "_client" client else data

/-- The `for key, val in kwargs.items(): json_data[key] = val` merge of
the extra keyword overrides into the copied mapping. -/
def applyKwargs (d : PyDict) (kwargs : PyDict) : PyDict :=
  kwargs.foldl (fun m kv => dictSet m kv.1 kv.2) d

/-- The merged mapping `json_data` right before the unknown-key sweep:
caller data (with `_client` bound when accepted) plus keyword overrides. -/
def mergedMap (attrs : List String) (data : PyDict) (client : PyVal)
    (kwargs : PyDict) : PyDict :=
  applyKwargs (withClient attrs data client) kwargs

/-- Python `key.startswith('_')`: whether the first character of the
key is an underscore.  (Defined structurally on the character list so
that it evaluates inside the kernel.) -/
def underscoreFirst (k : String) : Bool :=
  match k.data with
  | [] => false
  | c :: _ => c = '_'

/-- The `for key in json_data.copy(): ...` sweep of `new_from_dict`:
walk the merged mapping in insertion order; keep keys in the accepted
set; delete the others — warning (and recording in `IGNORED_KEYS`) only
for names that are not already recorded and do not start with an
underscore.  Returns the surviving bindings, the updated `IGNORED_KEYS`,
and the names warned about in this call, in sweep order. -/
def dropUnknown (attrs : List String) : PyDict → List String →
    PyDict × List String × List String
  | [], ignored => ([], ignored, [])
  | (k, v) :: rest, ignored =>
    if k ∈ attrs then
      match dropUnknown attrs rest ignored with
      | (jd, ig, ws) => ((k, v) :: jd, ig, ws)
    else if k ∉ ignored ∧ underscoreFirst k = false then
      match dropUnknown attrs rest (ignored ++ [k]) with
      | (jd, ig, ws) => (jd, ig, k :: ws)
    else
      dropUnknown attrs rest ignored

/-- `MeModel.new_from_dict` from `meapi/models/me_model.py`: empty
`data` short-circuits to `None` (no mutation, no warnings); otherwise
the caller's mapping gets `_client` bound when the class accepts it,
a copy is merged with `kwargs`, unknown keys are swept out, and the
survivors become the constructor arguments. -/
def new_from_dict (attrs : List String) (data : PyDict) (client : PyVal)
    (kwargs : PyDict) (ignored : List String) : HydResult :=
  if data = [] then ⟨data, Option.none, ignored, []⟩
  else
    match dropUnknown attrs (mergedMap attrs data client kwargs) ignored with
    | (jd, ig, ws) => ⟨withClient attrs data client, some jd, ig, ws⟩

/-- One hydration call in a process-wide sequence: a model class
(through its accepted-field set), the caller data, the client
reference, and the extra keyword overrides. -/
structure HydCall where
  attrs : List String
  data : PyDict
  client : PyVal
  kwargs : PyDict

/-- Run a sequence of hydration calls (possibly for different model
types), threading the process-wide `IGNORED_KEYS` list through, and
collect every warning emitted across the whole sequence in order. -/
def runHydrations : List HydCall → List String → List String × List String
  | [], ig => (ig, [])
  | c :: rest, ig =>
    match runHydrations rest (new_from_dict c.attrs c.data c.client c.kwargs ig).ignored with
    | (igF, ws) => (igF, (new_from_dict c.attrs c.data c.client c.kwargs ig).warnings ++ ws)

/-! ## Python exceptions raised by the modelled code paths -/

/-- The exceptions the embedded code can raise: the library's own
`MeException`, and Python's `ValueError` (from `strptime`),
`TypeError` (missing required constructor argument) and
`AttributeError` (from a defaultless `getattr`). -/
inductive PyError where
  | meException (msg : String)
  | valueError (msg : String)
  | typeError (msg : String)
  | attributeError (name : String)
deriving DecidableEq

/-! ## `parse_date` from `meapi/utils/helpers.py`

`parse_date(date_str, date_only)` returns `None` for `None` and
otherwise runs `datetime.strptime(str(date_str), fmt)` with
`fmt = '%Y-%m-%d'` when `date_only` else `'%Y-%m-%dT%H:%M:%S%z'`,
raising `ValueError` when the string does not match.  The parsers
below model CPython's `strptime` on these two formats: `%Y` is exactly
four digits, `%m`/`%d`/`%H`/`%M`/`%S` are one or two digits with the
directive's value range, the date components must form a real calendar
date, and `%z` accepts `Z` or a signed `HH:MM` / `HHMM` offset
(fractional-second offsets are not used by this API and are omitted). -/

/-- The numeric value of a decimal digit character, if it is one. -/
def digitVal (c : Char) : Option Nat :=
  if 48 ≤ c.toNat ∧ c.toNat ≤ 57 then some (c.toNat - 48) else Option.none

/-- Greedily read one or two decimal digits. -/
def take2Digits : List Char → Option (Nat × List Char)
  | [] => Option.none
  | c1 :: rest1 =>
    match digitVal c1 with
    | Option.none => Option.none
    | some d1 =>
      match rest1 with
      | c2 :: rest2 =>
        match digitVal c2 with
        | some d2 => some (d1 * 10 + d2, rest2)
        | Option.none => some (d1, rest1)
      | [] => some (d1, rest1)

/-- Read exactly two decimal digits. -/
def take2DigitsExact : List Char → Option (Nat × List Char)
  | a :: b :: rest =>
    match digitVal a, digitVal b with
    | some x1, some x2 => some (x1 * 10 + x2, rest)
    | _, _ => Option.none
  | _ => Option.none

/-- Read exactly four decimal digits (`%Y`). -/
def take4Digits : List Char → Option (Nat × List Char)
  | a :: b :: c :: d :: rest =>
    match digitVal a, digitVal b, digitVal c, digitVal d with
    | some x1, some x2, some x3, some x4 =>
        some (((x1 * 10 + x2) * 10 + x3) * 10 + x4, rest)
    | _, _, _, _ => Option.none
  | _ => Option.none

/-- Consume one expected literal character. -/
def expectChar (c : Char) : List Char → Option (List Char)
  | x :: rest => if x = c then some rest else Option.none
  | [] => Option.none

/-- Days in a month, with the Gregorian leap-year rule (the calendar
validation `datetime` applies to `strptime` results). -/
def daysInMonth (y m : Nat) : Nat :=
  if m = 2 then (if y % 4 = 0 ∧ (y % 100 ≠ 0 ∨ y % 400 = 0) then 29 else 28)
  else if m = 4 ∨ m = 6 ∨ m = 9 ∨ m = 11 then 30 else 31

/-- Parse the `%Y-%m-%d` prefix, validating that it is a real date. -/
def parseYmd (cs : List Char) : Option (Nat × Nat × Nat × List Char) := do
  let (y, cs) ← take4Digits cs
  let cs ← expectChar '-' cs
  let (m, cs) ← take2Digits cs
  let cs ← expectChar '-' cs
  let (d, cs) ← take2Digits cs
  if 1 ≤ y ∧ 1 ≤ m ∧ m ≤ 12 ∧ 1 ≤ d ∧ d ≤ daysInMonth y m then
    some (y, m, d, cs)
  else
    Option.none

/-- `strptime(s, '%Y-%m-%d')`: the whole string is one valid date. -/
def parseDateOnly (s : String) : Option (Nat × Nat × Nat) :=
  match parseYmd s.data with
  | some (y, m, d, []) => some (y, m, d)
  | _ => Option.none

/-- The `%z` directive: `Z` (UTC), or a sign followed by a two-digit
hour, an optional colon, and a two-digit minute below 60; the offset
must stay below 24 hours.  Result in minutes. -/
def parseTz : List Char → Option (Int × List Char)
  | 'Z' :: rest => some (0, rest)
  | c :: rest =>
    if c = '+' ∨ c = '-' then
      match take2DigitsExact rest with
      | Option.none => Option.none
      | some (hh, cs1) =>
        let cs2 := match cs1 with
          | ':' :: r => r
          | _ => cs1
        match take2DigitsExact cs2 with
        | Option.none => Option.none
        | some (mm, cs3) =>
          if hh ≤ 23 ∧ mm ≤ 59 then
            some (if c = '-' then -(((hh * 60 + mm : Nat)) : Int) else ((hh * 60 + mm : Nat) : Int), cs3)
          else Option.none
    else Option.none
  | [] => Option.none

/-- `strptime(s, '%Y-%m-%dT%H:%M:%S%z')`: date, literal `T`, time,
and a timezone offset, consuming the whole string. -/
def parseDatetimeStr (s : String) : Option (Nat × Nat × Nat × Nat × Nat × Nat × Int) :=
  match parseYmd s.data with
  | Option.none => Option.none
  | some (y, m, d, cs) =>
    match expectChar 'T' cs with
    | Option.none => Option.none
    | some cs =>
      match take2Digits cs with
      | Option.none => Option.none
      | some (hh, cs) =>
        match expectChar ':' cs with
        | Option.none => Option.none
        | some cs =>
          match take2Digits cs with
          | Option.none => Option.none
          | some (mi, cs) =>
            match expectChar ':' cs with
            | Option.none => Option.none
            | some cs =>
              match take2Digits cs with
              | Option.none => Option.none
              | some (ss, cs) =>
                match parseTz cs with
                | some (off, []) =>
                  if hh ≤ 23 ∧ mi ≤ 59 ∧ ss ≤ 59 then
                    some (y, m, d, hh, mi, ss, off)
                  else Option.none
                | _ => Option.none

/-- `parse_date` from `meapi/utils/helpers.py`: `None` passes through;
otherwise `str(v)` must match the date-only or datetime format, giving
a `date` / `datetime` value, else `ValueError`. -/
def parse_date (dateOnly : Bool) (v : PyVal) : Except PyError PyVal :=
  if v = PyVal.none then .ok PyVal.none
  else if dateOnly then
    match parseDateOnly (pyStr v) with
    | some (y, m, d) => .ok (.date y m d)
    | Option.none =>
        .error (.valueError ("time data \x27" ++ pyStr v ++
          "\x27 does not match format \x27%Y-%m-%d\x27"))
  else
    match parseDatetimeStr (pyStr v) with
    | some (y, m, d, hh, mi, ss, off) => .ok (.datetime y m d hh mi ss off)
    | Option.none =>
        .error (.valueError ("time data \x27" ++ pyStr v ++
          "\x27 does not match format \x27%Y-%m-%dT%H:%M:%S%z\x27"))

/-! ## `MeModel.__setattr__` from `meapi/models/me_model.py` -/

/-- `MeModel.__setattr__`: once the `_MeModel__init_done` flag is truthy
(set by `MeModel.__init__` as the last step of construction), *every*
attribute assignment raises
`MeException("You cannot change protected attr '<key>' of '<Cls>'!")`
and the instance is left unchanged; before that, the attribute is
simply bound.  Models with a mutable whitelist override `__setattr__`
and never set this flag, so for base-guarded models the whitelist is
empty.  Result: the instance `__dict__` after the call, and the raised
exception if any. -/
def memodel_setattr (clsName : String) (attrs : PyDict) (key : String) (v : PyVal) :
    PyDict × Option PyError :=
  if truthy (dictGet attrs "_MeModel__init_done") then
    (attrs, some (.meException ("You cannot change protected attr \x27" ++ key ++
      "\x27 of \x27" ++ clsName ++ "\x27!")))
  else
    (dictSet attrs key v, Option.none)

/-! ## `Profile.__setattr__` and `Profile.refresh` from `meapi/models/profile.py` -/

/-- The fixed mutable whitelist in `Profile.__setattr__`. -/
def profileMutableFields : List String :=
  ["country_code", "date_of_birth", "device_type", "login_type", "email", "first_name",
   "last_name", "slogan", "gender", "profile_picture_url", "facebook_url"]

/-- The owning client's `update_profile_details(**{key: value})` call:
from the field and requested value to the success flag and the echoed
profile (read back with `getattr(res[1], key, None)`, i.e. `dictGet`). -/
abbrev ProfileClient := String → PyVal → Bool × PyDict

/-- Outcome of one `Profile.__setattr__` call: the instance `__dict__`
after the call (unchanged when an exception is raised), the raised
exception if any, and the `update_profile_details` calls issued. -/
structure SetattrOut where
  state : PyDict
  error : Option PyError
  calls : List (String × PyVal)
deriving DecidableEq

/-- `Profile.__setattr__`: when `_Profile__my_profile` is not `None`,
a truthy value (own profile) lets the internal `_Profile__my_profile`
key through to the `MeModel` guard, rejects keys outside the mutable
whitelist (`"You cannot change this field!"`), and otherwise issues the
update call, committing only when the server reported success and the
echoed field equals the requested value as strings (or the key is
`profile_picture`, which is never compared) — with `parse_date`
coercion for `date_of_birth`; on a failed echo comparison it raises
`MeException("Failed to change '<current value>' to '<new value>'!")`.
A falsy-but-not-`None` `_Profile__my_profile` (someone else's profile)
rejects every write with
`MeException("You cannot update profile if it's not yours!")`.
When `_Profile__my_profile` is `None` (absent or cleared by
`refresh`), the write falls through to the `MeModel` guard — which is
inert for `Profile`, whose `__init__` never sets the init flag. -/
def profile_setattr (client : ProfileClient) (p : PyDict) (key : String) (v : PyVal) :
    SetattrOut :=
  if dictGet p "_Profile__my_profile" ≠ PyVal.none then
    if truthy (dictGet p "_Profile__my_profile") then
      if key = "_Profile__my_profile" then
        match memodel_setattr "Profile" p key v with
        | (p2, e) => ⟨p2, e, []⟩
      else if key ∉ profileMutableFields then
        ⟨p, some (.meException "You cannot change this field!"), []⟩
      else
        match client key v with
        | (success, echo) =>
          if (success = true ∧ pyStr (dictGet echo key) = pyStr v) ∨ key = "profile_picture" then
            if key = "date_of_birth" then
              match parse_date true v with
              | .ok v2 => ⟨dictSet p key v2, Option.none, [(key, v)]⟩
              | .error e => ⟨p, some e, [(key, v)]⟩
            else ⟨dictSet p key v, Option.none, [(key, v)]⟩
          else
            match dictFind p key with
            | some cur => ⟨p, some (.meException ("Failed to change \x27" ++ pyStr cur ++
                "\x27 to \x27" ++ pyStr v ++ "\x27!")), [(key, v)]⟩
            | Option.none => ⟨p, some (.attributeError key), [(key, v)]⟩
    else
      ⟨p, some (.meException "You cannot update profile if it\x27s not yours!"), []⟩
  else
    match memodel_setattr "Profile" p key v with
    | (p2, e) => ⟨p2, e, []⟩

/-- The `self.__dict__ = deepcopy(...)` statement of `Profile.refresh`:
attribute assignment to `__dict__` is itself routed through
`Profile.__setattr__` (`'__dict__'` is neither the internal key nor
whitelisted), and when it reaches the base `object.__setattr__` it
replaces the whole instance dictionary. -/
def setattr_replace_dict (p : PyDict) (newDict : PyDict) : PyDict × Option PyError :=
  if dictGet p "_Profile__my_profile" ≠ PyVal.none then
    if truthy (dictGet p "_Profile__my_profile") then
      (p, some (.meException "You cannot change this field!"))
    else
      (p, some (.meException "You cannot update profile if it\x27s not yours!"))
  else
    if truthy (dictGet p "_MeModel__init_done") then
      (p, some (.meException "You cannot change protected attr \x27__dict__\x27 of \x27Profile\x27!"))
    else
      (newDict, Option.none)

/-- `Profile.refresh`: first `self.__my_profile = None` (through
`Profile.__setattr__`!), then replace `self.__dict__` with a deep copy
of the freshly fetched profile's `__dict__` (`fetched`), and return
whether the refreshed state is the caller's own profile.  Result: the
instance state afterwards and either the raised exception or the
returned boolean. -/
def profile_refresh (client : ProfileClient) (fetched : PyDict) (p : PyDict) :
    PyDict × Except PyError Bool :=
  match profile_setattr client p "_Profile__my_profile" PyVal.none with
  | s1 =>
    match s1.error with
    | some e => (s1.state, .error e)
    | Option.none =>
      match setattr_replace_dict s1.state fetched with
      | (p2, some e) => (p2, .error e)
      | (p2, Option.none) =>
        (p2, .ok (if truthy (dictGet p2 "_Profile__my_profile") then true else false))

/-! ## `as_dict` / `as_json` and the concrete models for the round-trip -/

/-- Whether a value is a `datetime.date` / `datetime.datetime`. -/
def isDateLike : PyVal → Bool
  | .date _ _ _ => true
  | .datetime _ _ _ _ _ _ _ => true
  | _ => false

/-- The `isinstance(value, (date, datetime))` branch of `as_dict`:
date-like values are replaced by `str(value)`. -/
def stringifyDates (v : PyVal) : PyVal :=
  if isDateLike v then .str (pyStr v) else v

/-- `MeModel.as_dict`: walk the instance `__dict__` in order, skip
underscore-prefixed keys, stringify date/datetime values.  The
list/nested-model branches of the source are identities on the
embedded scalar value domain (no nested model objects occur there). -/
def as_dict (d : PyDict) : PyDict :=
  d.filterMap fun kv =>
    if underscoreFirst kv.1 then Option.none
    else some (kv.1, stringifyDates kv.2)

/-- The sorted pair list underlying `as_json`'s
`json.dumps(..., sort_keys=True)`. -/
def asJsonPairs (d : PyDict) : PyDict :=
  List.insertionSort (fun a b => a.1 ≤ b.1) (as_dict d)

instance : DecidableRel (fun (a b : String × PyVal) => a.1 ≤ b.1) :=
  fun a b => inferInstanceAs (Decidable (a.1 ≤ b.1))

instance : IsTotal (String × PyVal) (fun a b => a.1 ≤ b.1) :=
  ⟨fun a b => le_total a.1 b.1⟩

instance : IsTrans (String × PyVal) (fun a b => a.1 ≤ b.1) :=
  ⟨fun _ _ _ h1 h2 => le_trans h1 h2⟩

/-- JSON string escaping for the ASCII values these models carry. -/
def jsonEscapeChar (c : Char) : String :=
  if c = '"' then "\\\"" else if c = '\\' then "\\\\" else String.mk [c]

/-- A JSON string literal. -/
def jsonStr (s : String) : String :=
  "\"" ++ String.join (s.data.map jsonEscapeChar) ++ "\""

/-- JSON encoding of a scalar value; date-like values make
`json.dumps` raise `TypeError`, modelled as `Option.none`. -/
def jsonVal : PyVal → Option String
  | PyVal.none => some "null"
  | .bool b => some (if b then "true" else "false")
  | .int n => some (toString n)
  | .str s => some (jsonStr s)
  | .date _ _ _ => Option.none
  | .datetime _ _ _ _ _ _ _ => Option.none

/-- Encode each `"key": value` member in order. -/
def jsonMembers : PyDict → Option (List String)
  | [] => some []
  | (k, v) :: rest =>
    match jsonVal v, jsonMembers rest with
    | some sv, some srest => some ((jsonStr k ++ ": " ++ sv) :: srest)
    | _, _ => Option.none

/-- `MeModel.as_json`: `json.dumps(self.as_dict(), sort_keys=True)`. -/
def as_json (d : PyDict) : Option String :=
  match jsonMembers (asJsonPairs d) with
  | some parts => some ("\x7b" ++ String.intercalate ", " parts ++ "\x7d")
  | Option.none => Option.none

/-- The accepted-field set of `Contact` from `meapi/models/others.py`
(its constructor parameters; it takes no `_client`). -/
def contactAttrs : List String :=
  ["phone_number", "name", "date_of_birth", "country_code"]

/-- `Contact.__init__` from `meapi/models/others.py`: plain assignments
(no coercion — `date_of_birth` is stored as given), then
`super().__init__()` sets the `MeModel` init flag. -/
def Contact_init (phone_number name date_of_birth country_code : PyVal) : PyDict :=
  [("phone_number", phone_number), ("name", name),
   ("date_of_birth", date_of_birth), ("country_code", country_code),
   ("_MeModel__init_done", PyVal.bool true)]

/-- `cls(**json_data)` for `Contact`: `phone_number` and `name` are
required (else `TypeError`), the other two default to `None`. -/
def Contact_from_kwargs (jd : PyDict) : Except PyError PyDict :=
  match dictFind jd "phone_number", dictFind jd "name" with
  | some pn, some nm =>
      .ok (Contact_init pn nm (dictGet jd "date_of_birth") (dictGet jd "country_code"))
  | _, _ => .error (.typeError "Contact missing required positional argument")

/-- `Contact.new_from_dict(data, **kwargs)`: hydration followed by
construction. -/
def hydrate_Contact (data : PyDict) (kwargs : PyDict) (ig : List String) :
    Except PyError (Option PyDict) :=
  match (new_from_dict contactAttrs data PyVal.none kwargs ig).ctorArgs with
  | Option.none => .ok Option.none
  | some jd => (Contact_from_kwargs jd).map some

/-- The accepted-field set of `Notification` from
`meapi/models/notification.py` (constructor parameters, `_client`
included). -/
def notificationAttrs : List String :=
  ["_client", "id", "created_at", "modified_at", "is_read", "sender", "status",
   "delivery_method", "distribution_date", "message_subject", "message_category",
   "message_body", "message_lang", "category", "phone_number", "name", "uuid",
   "new_name", "notification_id", "profile_picture", "tag"]

/-- `Notification.__init__` from `meapi/models/notification.py`:
`created_at`, `modified_at` and `distribution_date` go through
`parse_date` (full datetime format; a mismatch raises `ValueError`),
the other fields are stored as given, and the attributes land in the
instance `__dict__` in assignment order, ending with the
`_Notification__init_done` flag. -/
def Notification_init (client id created_at modified_at is_read sender status
    delivery_method distribution_date message_subject message_category message_body
    message_lang category phone_number name uuid new_name notification_id
    profile_picture tag : PyVal) : Except PyError PyDict :=
  match parse_date false created_at with
  | .error e => .error e
  | .ok created2 =>
    match parse_date false modified_at with
    | .error e => .error e
    | .ok modified2 =>
      match parse_date false distribution_date with
      | .error e => .error e
      | .ok dist2 =>
        .ok [("_Notification__client", client), ("id", id), ("created_at", created2),
             ("modified_at", modified2), ("is_read", is_read), ("sender", sender),
             ("status", status), ("delivery_method", delivery_method),
             ("distribution_date", dist2), ("message_subject", message_subject),
             ("message_category", message_category), ("message_body", message_body),
             ("message_lang", message_lang), ("name", name), ("uuid", uuid),
             ("category", category), ("new_name", new_name), ("phone_number", phone_number),
             ("notification_id", notification_id), ("profile_picture", profile_picture),
             ("tag", tag), ("_Notification__init_done", PyVal.bool true)]

/-- `cls(**json_data)` for `Notification`: the fourteen defaultless
parameters are required, the rest default to `None`. -/
def Notification_from_kwargs (jd : PyDict) : Except PyError PyDict :=
  match dictFind jd "_client", dictFind jd "id", dictFind jd "created_at",
        dictFind jd "modified_at", dictFind jd "is_read", dictFind jd "sender",
        dictFind jd "status", dictFind jd "delivery_method",
        dictFind jd "distribution_date", dictFind jd "message_subject",
        dictFind jd "message_category", dictFind jd "message_body",
        dictFind jd "message_lang", dictFind jd "category" with
  | some cl, some idv, some ca, some ma, some ir, some se, some st, some dm, some dd,
    some ms, some mc, some mb, some ml, some cat =>
      Notification_init cl idv ca ma ir se st dm dd ms mc mb ml cat
        (dictGet jd "phone_number") (dictGet jd "name") (dictGet jd "uuid")
        (dictGet jd "new_name") (dictGet jd "notification_id")
        (dictGet jd "profile_picture") (dictGet jd "tag")
  | _, _, _, _, _, _, _, _, _, _, _, _, _, _ =>
      .error (.typeError "Notification missing required argument")

/-- `Notification.new_from_dict(data, _client)`: hydration followed by
construction. -/
def hydrate_Notification (data : PyDict) (client : PyVal) (kwargs : PyDict)
    (ig : List String) : Except PyError (Option PyDict) :=
  match (new_from_dict notificationAttrs data client kwargs ig).ctorArgs with
  | Option.none => .ok Option.none
  | some jd => (Notification_from_kwargs jd).map some

/-- Substring scan on character lists (`needle ⊑ hay` at the head). -/
def startsWithChars : List Char → List Char → Bool
  | _, [] => true
  | [], _ :: _ => false
  | a :: as, b :: bs => a = b && startsWithChars as bs

/-- Whether `needle` occurs anywhere in `hay`. -/
def containsChars : List Char → List Char → Bool
  | [], needle => startsWithChars [] needle
  | c :: rest, needle => startsWithChars (c :: rest) needle || containsChars rest needle

/-- Python `sub in s`: substring containment. -/
def strContains (s sub : String) : Bool :=
  containsChars s.data sub.data

/-! ## Helper lemmas -/

theorem dictFind_dictSet_self (d : PyDict) (k : String) (v : PyVal) :
    dictFind (dictSet d k v) k = some v := by
  induction d with
  | nil => simp [dictSet, dictFind]
  | cons kv rest ih =>
    obtain ⟨k0, v0⟩ := kv
    by_cases hk : k0 = k
    · simp [dictSet, dictFind, hk]
    · simp [dictSet, dictFind, hk, ih]

theorem dictFind_dictSet_ne (d : PyDict) (k k' : String) (v : PyVal) (h : k ≠ k') :
    dictFind (dictSet d k v) k' = dictFind d k' := by
  induction d with
  | nil => simp [dictSet, dictFind, h]
  | cons kv rest ih =>
    obtain ⟨k0, v0⟩ := kv
    by_cases hk : k0 = k
    · subst hk
      simp [dictSet, dictFind, h, Ne.symm h]
    · by_cases hk' : k0 = k'
      · simp [dictSet, dictFind, hk, hk', Ne.symm h]
      · simp [dictSet, dictFind, hk, hk', ih]

theorem dictGet_dictSet_self (d : PyDict) (k : String) (v : PyVal) :
    dictGet (dictSet d k v) k = v := by
  simp [dictGet, dictFind_dictSet_self]

theorem dictGet_dictSet_ne (d : PyDict) (k k' : String) (v : PyVal) (h : k ≠ k') :
    dictGet (dictSet d k v) k' = dictGet d k' := by
  simp [dictGet, dictFind_dictSet_ne d k k' v h]

theorem get_contacts_loop_eq_filterMap (contacts : List PyItem) :
    ∀ acc, get_contacts_loop contacts acc = acc ++ contacts.filterMap keepContact := by
  induction contacts with
  | nil => intro acc; simp [get_contacts_loop]
  | cons c rest ih =>
    intro acc
    cases c with
    | nondict => simp [get_contacts_loop, keepContact, ih]
    | dict d =>
      by_cases h : truthy (dictGet d "name") && truthy (dictGet d "phone_number")
      · simp [get_contacts_loop, keepContact, h, ih]
      · simp [get_contacts_loop, keepContact, h, ih]

theorem get_contacts_eq (contacts : List PyItem) :
    get_contacts contacts =
      (if contacts.filterMap keepContact = [] then .error contactsErrMsg
       else .ok (contacts.filterMap keepContact)) := by
  simp [get_contacts, get_contacts_loop_eq_filterMap contacts []]

theorem keep_of_mem_filterMap {d : PyDict} {contacts : List PyItem}
    (h : d ∈ contacts.filterMap keepContact) :
    (truthy (dictGet d "name") && truthy (dictGet d "phone_number")) = true := by
  rcases List.mem_filterMap.1 h with ⟨item, _, hk⟩
  cases item with
  | nondict => simp [keepContact] at hk
  | dict d' =>
    by_cases hc : (truthy (dictGet d' "name") && truthy (dictGet d' "phone_number")) = true
    · simp only [keepContact, hc, if_true, Option.some.injEq] at hk
      subst hk; exact hc
    · simp [keepContact, hc] at hk

theorem filterMap_dict_self {l : List PyDict}
    (h : ∀ d ∈ l, (truthy (dictGet d "name") && truthy (dictGet d "phone_number")) = true) :
    (l.map PyItem.dict).filterMap keepContact = l := by
  induction l with
  | nil => simp
  | cons d rest ih =>
    have hd := h d (by simp)
    simp only [List.map_cons, List.filterMap_cons, keepContact, hd, if_true]
    rw [ih fun x hx => h x (List.mem_cons_of_mem _ hx)]

theorem setTagDefault_get_ne (c : PyDict) (k : String) (h : k ≠ "tag") :
    dictGet (setTagDefault c) k = dictGet c k := by
  unfold setTagDefault
  split_ifs with h1
  · rfl
  · exact dictGet_dictSet_ne _ _ _ _ (Ne.symm h)

theorem setDurationDefault_get_ne (c : PyDict) (k : String) (h : k ≠ "duration") :
    dictGet (setDurationDefault c) k = dictGet c k := by
  unfold setDurationDefault
  split_ifs with h1
  · rfl
  · exact dictGet_dictSet_ne _ _ _ _ (Ne.symm h)

theorem setDefaults_get_ne (c : PyDict) (k : String)
    (hd : k ≠ "duration") (ht : k ≠ "tag") :
    dictGet (setDefaults c) k = dictGet c k := by
  unfold setDefaults
  rw [setTagDefault_get_ne _ _ ht, setDurationDefault_get_ne _ _ hd]

theorem processDict_mem_ok {acc acc' : List PyDict} {call : PyDict}
    (h : processDict acc call = .ok acc') :
    ∀ d ∈ acc', d ∈ acc ∨ dictGet d "called_at" = .str "2022-04-18T05:59:07Z" := by
  unfold processDict at h
  cases hf : fixName call with
  | error e => rw [hf] at h; simp at h
  | ok c1 =>
    rw [hf] at h
    by_cases ht : dictGet c1 "type" ∈ callTypes
    · simp only [ht, not_true_eq_false, if_false, Except.ok.injEq] at h
      subst h
      unfold appendIfDefaulted
      split_ifs with hc
      · exact fun d hd => Or.inl hd
      · intro d hd
        rcases List.mem_append.1 hd with hmem | hone
        · exact Or.inl hmem
        · right
          rw [List.mem_singleton.1 hone]
          exact dictGet_dictSet_self _ _ _
    · simp [ht] at h

theorem processCall_mem_ok {acc acc' : List PyDict} {item : PyItem}
    (h : processCall acc item = .ok acc') :
    ∀ d ∈ acc', d ∈ acc ∨ dictGet d "called_at" = .str "2022-04-18T05:59:07Z" := by
  cases item with
  | nondict =>
    simp only [processCall, Except.ok.injEq] at h
    subst h; exact fun d hd => Or.inl hd
  | dict call =>
    exact processDict_mem_ok h

theorem get_calls_loop_called_at (calls : List PyItem) :
    ∀ (acc l : List PyDict), get_calls_loop calls acc = .ok l →
      ∀ d ∈ l, d ∈ acc ∨ dictGet d "called_at" = .str "2022-04-18T05:59:07Z" := by
  induction calls with
  | nil =>
    intro acc l h
    simp only [get_calls_loop, Except.ok.injEq] at h
    subst h; exact fun d hd => Or.inl hd
  | cons c rest ih =>
    intro acc l h
    unfold get_calls_loop at h
    cases hp : processCall acc c with
    | error e => rw [hp] at h; simp at h
    | ok acc' =>
      rw [hp] at h
      intro d hd
      rcases ih acc' l h d hd with hmem | hs
      · exact processCall_mem_ok hp d hmem
      · exact Or.inr hs

/-! ## Claim theorems: the validators -/

/-- **C7.** `get_contacts` (the contacts validator) keeps exactly the
entries that are dicts with a truthy (present, non-empty) `name` and a
truthy `phone_number`, in input order and without deduplication
(`List.filterMap keepContact`); entries missing either field and
non-dicts are silently dropped; and it raises the `MeException` with
message `contactsErrMsg` exactly when nothing survives the filter — in
particular on the empty input list. -/
theorem c7_get_contacts_filter (contacts : List PyItem) :
    (∀ l, get_contacts contacts = .ok l ↔
        (l = contacts.filterMap keepContact ∧ l ≠ [])) ∧
    (get_contacts contacts = .error contactsErrMsg ↔
        contacts.filterMap keepContact = []) := by
  rw [get_contacts_eq]
  by_cases h : contacts.filterMap keepContact = []
  · constructor
    · intro l
      rw [if_pos h]
      constructor
      · intro hfalse; exact Except.noConfusion hfalse
      · rintro ⟨hl, hne⟩; exact absurd (hl.trans h) hne
    · rw [if_pos h]
      exact ⟨fun _ => h, fun _ => rfl⟩
  · constructor
    · intro l
      rw [if_neg h]
      constructor
      · intro hok
        have heq : contacts.filterMap keepContact = l := by
          injection hok
        exact ⟨heq.symm, heq ▸ h⟩
      · rintro ⟨rfl, _⟩; rfl
    · rw [if_neg h]
      constructor
      · intro hcontra; exact Except.noConfusion hcontra
      · intro hfm; exact absurd hfm h

/-- Witness for C7 at concrete inputs: a dict with truthy `name` and
`phone_number` is kept unchanged, and the empty list raises. -/
theorem c7_get_contacts_filter_witness :
    get_contacts [PyItem.dict [("name", PyVal.str "A"), ("phone_number", PyVal.int 123)]] =
      .ok [[("name", PyVal.str "A"), ("phone_number", PyVal.int 123)]] ∧
    get_contacts [] = .error contactsErrMsg :=
  ⟨((c7_get_contacts_filter _).1 _).2 ⟨by decide, by decide⟩,
   (c7_get_contacts_filter []).2.2 (by decide)⟩

theorem processDict_skip {call c1 : PyDict} {acc : List PyDict}
    (hfe : fixName call = .ok c1)
    (ht : dictGet c1 "type" ∈ callTypes)
    (hc : truthy (dictGet c1 "called_at") = true) :
    processDict acc call = .ok acc := by
  unfold processDict
  rw [hfe]
  simp only [ht, not_true_eq_false, if_false, Except.ok.injEq]
  unfold appendIfDefaulted
  rw [setDefaults_get_ne _ _ (by decide) (by decide), if_pos hc]

/-- **C3.** In the `get_calls` loop, an entry that passes the per-entry
checks (truthy `phone_number`, so `name` is present or defaulted, and a
`type` in the closed set) but that already carries a truthy `called_at`
leaves the result list untouched — the entry is never appended; and
every dict in a successful `get_calls` output got there through the
defaulting branch, i.e. carries the sentinel
`called_at = "2022-04-18T05:59:07Z"`. -/
theorem c3_existing_called_at_dropped :
    (∀ (call : PyDict) (acc : List PyDict),
        truthy (dictGet call "phone_number") = true →
        dictGet call "type" ∈ callTypes →
        truthy (dictGet call "called_at") = true →
        processCall acc (.dict call) = .ok acc) ∧
    (∀ (calls : List PyItem) (l : List PyDict),
        get_calls calls = .ok l →
        ∀ d ∈ l, dictGet d "called_at" = .str "2022-04-18T05:59:07Z") := by
  constructor
  · intro call acc hp ht hc
    show processDict acc call = .ok acc
    cases hn : truthy (dictGet call "name") with
    | true =>
      refine @processDict_skip call call acc ?_ ht hc
      unfold fixName
      simp [hn, hp]
    | false =>
      refine @processDict_skip call
        (dictSet call "name" (.str (pyStr (dictGet call "phone_number")))) acc ?_ ?_ ?_
      · unfold fixName
        simp [hn, hp]
      · rw [dictGet_dictSet_ne _ _ _ _ (by decide)]; exact ht
      · rw [dictGet_dictSet_ne _ _ _ _ (by decide)]; exact hc
  · intro calls l h d hd
    unfold get_calls at h
    cases hloop : get_calls_loop calls [] with
    | error e => rw [hloop] at h; exact Except.noConfusion h
    | ok cl =>
      rw [hloop] at h
      by_cases hne : cl = []
      · simp [hne] at h
      · simp only [hne, if_false, Except.ok.injEq] at h
        subst h
        rcases get_calls_loop_called_at calls [] cl hloop d hd with hmem | hs
        · exact absurd hmem (List.not_mem_nil d)
        · exact hs

/-- Witness for C3: a complete entry with a pre-existing `called_at`
is skipped (accumulator unchanged), and the single dict produced by a
successful `get_calls` run carries the sentinel `called_at`. -/
theorem c3_existing_called_at_dropped_witness :
    processCall []
      (.dict [("name", PyVal.str "Joey"), ("phone_number", PyVal.int 515),
              ("type", PyVal.str "incoming"),
              ("called_at", PyVal.str "2022-01-03T16:50:24Z")]) = .ok [] ∧
    dictGet [("phone_number", PyVal.int 515), ("type", PyVal.str "incoming"),
             ("name", PyVal.str "515"), ("duration", PyVal.int 123),
             ("tag", PyVal.none), ("called_at", PyVal.str "2022-04-18T05:59:07Z")]
      "called_at" = PyVal.str "2022-04-18T05:59:07Z" :=
  ⟨c3_existing_called_at_dropped.1 _ [] (by decide) (by decide) (by decide),
   c3_existing_called_at_dropped.2
     [PyItem.dict [("phone_number", PyVal.int 515), ("type", PyVal.str "incoming")]]
     [[("phone_number", PyVal.int 515), ("type", PyVal.str "incoming"),
       ("name", PyVal.str "515"), ("duration", PyVal.int 123),
       ("tag", PyVal.none), ("called_at", PyVal.str "2022-04-18T05:59:07Z")]]
     (by decide) _ (by decide)⟩

/-- **C4 (counterexample).** The call-log validator is *not* idempotent:
this input validates successfully, but re-validating the returned list
raises the `MeException` with message `callsErrMsg`, because every
returned entry carries a truthy `called_at` and therefore is never
appended on the second run. -/
theorem c4_validators_idempotent_counterexample :
    get_calls [PyItem.dict [("phone_number", PyVal.int 555), ("type", PyVal.str "missed")]] =
      .ok [[("phone_number", PyVal.int 555), ("type", PyVal.str "missed"),
            ("name", PyVal.str "555"), ("duration", PyVal.int 123),
            ("tag", PyVal.none), ("called_at", PyVal.str "2022-04-18T05:59:07Z")]] ∧
    get_calls [PyItem.dict [("phone_number", PyVal.int 555), ("type", PyVal.str "missed"),
            ("name", PyVal.str "555"), ("duration", PyVal.int 123),
            ("tag", PyVal.none), ("called_at", PyVal.str "2022-04-18T05:59:07Z")]] =
      .error callsErrMsg :=
  ⟨by decide, by decide⟩

/-- **C4 (amended).** The contacts validator `get_contacts` is
idempotent: re-validating any successful output returns exactly that
output, without raising.  (The call-log validator `get_calls` is not
idempotent — see the counterexample above.) -/
theorem c4_contacts_idempotent (contacts : List PyItem) (l : List PyDict)
    (h : get_contacts contacts = .ok l) :
    get_contacts (l.map PyItem.dict) = .ok l := by
  rw [get_contacts_eq] at h
  by_cases hfm : contacts.filterMap keepContact = []
  · rw [if_pos hfm] at h; exact Except.noConfusion h
  · rw [if_neg hfm] at h
    have heq : contacts.filterMap keepContact = l := by injection h
    have hall : ∀ d ∈ l,
        (truthy (dictGet d "name") && truthy (dictGet d "phone_number")) = true := by
      intro d hd
      exact keep_of_mem_filterMap (heq.symm ▸ hd)
    rw [get_contacts_eq, filterMap_dict_self hall]
    rw [if_neg (heq ▸ hfm)]

/-- Witness for C4 (amended): re-validating the output of a successful
`get_contacts` run returns it unchanged. -/
theorem c4_contacts_idempotent_witness :
    get_contacts [PyItem.dict [("name", PyVal.str "B"), ("phone_number", PyVal.int 7)]] =
      .ok [[("name", PyVal.str "B"), ("phone_number", PyVal.int 7)]] :=
  c4_contacts_idempotent
    [PyItem.dict [("name", PyVal.str "B"), ("phone_number", PyVal.int 7)], PyItem.nondict]
    [[("name", PyVal.str "B"), ("phone_number", PyVal.int 7)]]
    (by decide)

theorem dropUnknown_spec (attrs : List String) :
    ∀ (l : PyDict) (ig : List String) (jd : PyDict) (ig2 ws : List String),
      dropUnknown attrs l ig = (jd, ig2, ws) →
      jd = l.filter (fun kv => kv.1 ∈ attrs) ∧
      ig2 = ig ++ ws ∧
      ws.Nodup ∧
      (∀ k ∈ ws, k ∉ ig ∧ underscoreFirst k = false ∧ k ∉ attrs) := by
  intro l
  induction l with
  | nil =>
    intro ig jd ig2 ws h
    simp only [dropUnknown, Prod.mk.injEq] at h
    obtain ⟨h1, h2, h3⟩ := h
    subst h1; subst h2; subst h3
    simp
  | cons kv rest ih =>
    intro ig jd ig2 ws h
    obtain ⟨k, v⟩ := kv
    simp only [dropUnknown] at h
    by_cases hk : k ∈ attrs
    · rw [if_pos hk] at h
      rcases hr : dropUnknown attrs rest ig with ⟨jd', ig2', ws'⟩
      rw [hr] at h
      injection h with hjd h'
      injection h' with hig hws
      subst hjd; subst hig; subst hws
      obtain ⟨g1, g2, g3, g4⟩ := ih ig jd' ig2' ws' hr
      refine ⟨?_, g2, g3, g4⟩
      simp [List.filter_cons, hk, g1]
    · rw [if_neg hk] at h
      by_cases hw : k ∉ ig ∧ underscoreFirst k = false
      · rw [if_pos hw] at h
        rcases hr : dropUnknown attrs rest (ig ++ [k]) with ⟨jd', ig2', ws'⟩
        rw [hr] at h
        injection h with hjd h'
        injection h' with hig hws
        subst hjd; subst hig; subst hws
        obtain ⟨g1, g2, g3, g4⟩ := ih (ig ++ [k]) jd' ig2' ws' hr
        refine ⟨?_, ?_, ?_, ?_⟩
        · simp [List.filter_cons, hk, g1]
        · rw [g2]; simp
        · exact List.nodup_cons.mpr ⟨fun hkm => (g4 k hkm).1 (by simp), g3⟩
        · intro x hx
          rcases List.mem_cons.1 hx with rfl | hx'
          · exact ⟨hw.1, hw.2, hk⟩
          · obtain ⟨hxig, hxs, hxa⟩ := g4 x hx'
            exact ⟨fun hxi => hxig (List.mem_append_left _ hxi), hxs, hxa⟩
      · rw [if_neg hw] at h
        obtain ⟨g1, g2, g3, g4⟩ := ih ig jd ig2 ws h
        refine ⟨?_, g2, g3, g4⟩
        simp [List.filter_cons, hk, g1]

theorem new_from_dict_ctorArgs {attrs : List String} {data : PyDict} {client : PyVal}
    {kwargs : PyDict} {ig : List String} {jd : PyDict}
    (h : (new_from_dict attrs data client kwargs ig).ctorArgs = some jd) :
    jd = (mergedMap attrs data client kwargs).filter (fun kv => kv.1 ∈ attrs) := by
  unfold new_from_dict at h
  by_cases hd : data = []
  · rw [if_pos hd] at h
    exact Option.noConfusion h
  · rw [if_neg hd] at h
    rcases hr : dropUnknown attrs (mergedMap attrs data client kwargs) ig with ⟨jd', ig2, ws⟩
    rw [hr] at h
    have hjd : jd' = jd := by injection h
    subst hjd
    exact (dropUnknown_spec attrs _ ig jd' ig2 ws hr).1

theorem new_from_dict_ignored_warnings (attrs : List String) (data : PyDict)
    (client : PyVal) (kwargs : PyDict) (ig : List String) :
    (new_from_dict attrs data client kwargs ig).ignored =
      ig ++ (new_from_dict attrs data client kwargs ig).warnings ∧
    (new_from_dict attrs data client kwargs ig).warnings.Nodup ∧
    (∀ k ∈ (new_from_dict attrs data client kwargs ig).warnings,
      k ∉ ig ∧ underscoreFirst k = false ∧ k ∉ attrs) := by
  unfold new_from_dict
  by_cases hd : data = []
  · rw [if_pos hd]; simp
  · rw [if_neg hd]
    rcases hr : dropUnknown attrs (mergedMap attrs data client kwargs) ig with ⟨jd', ig2, ws⟩
    obtain ⟨_, g2, g3, g4⟩ := dropUnknown_spec attrs _ ig jd' ig2 ws hr
    exact ⟨g2, g3, g4⟩

/-! ## Claim theorems: hydration -/

/-- **C5.** During hydration, the constructor receives exactly the
bindings of the merged mapping whose keys are in the model type's
accepted-field set (every other key is dropped); and across any
sequence of hydration calls — in the same or different model types —
threading the process-wide `IGNORED_KEYS` list, the warnings emitted
over the whole sequence contain each field name at most once (the
collected warning list has no duplicates), and never a name already
recorded at the start. -/
theorem c5_unknown_field_warn_once :
    (∀ (attrs : List String) (data : PyDict) (client : PyVal) (kwargs : PyDict)
        (ig : List String) (jd : PyDict),
        (new_from_dict attrs data client kwargs ig).ctorArgs = some jd →
        jd = (mergedMap attrs data client kwargs).filter (fun kv => kv.1 ∈ attrs)) ∧
    (∀ (calls : List HydCall) (ig0 : List String),
        (runHydrations calls ig0).2.Nodup ∧
        ∀ k ∈ (runHydrations calls ig0).2, k ∉ ig0) := by
  constructor
  · intro attrs data client kwargs ig jd h
    exact new_from_dict_ctorArgs h
  · intro calls
    induction calls with
    | nil => intro ig0; simp [runHydrations]
    | cons c rest ih =>
      intro ig0
      obtain ⟨hig, hnd, hni⟩ :=
        new_from_dict_ignored_warnings c.attrs c.data c.client c.kwargs ig0
      rcases hr : runHydrations rest
          (new_from_dict c.attrs c.data c.client c.kwargs ig0).ignored with ⟨igF, ws⟩
      obtain ⟨hws_nd, hws_ni⟩ := ih (new_from_dict c.attrs c.data c.client c.kwargs ig0).ignored
      rw [hr] at hws_nd hws_ni
      simp only [runHydrations]
      rw [hr]
      constructor
      · refine List.Nodup.append hnd hws_nd ?_
        intro a ha hws
        have hnot := hws_ni a hws
        rw [hig] at hnot
        exact hnot (List.mem_append_right _ ha)
      · intro k hk
        rcases List.mem_append.1 hk with h1 | h2
        · exact (hni k h1).1
        · have hnot := hws_ni k h2
          rw [hig] at hnot
          exact fun hk0 => hnot (List.mem_append_left _ hk0)

/-- Witness for C5: a hydration call with one accepted key and one
unknown key hands the constructor exactly the accepted binding; and a
two-call sequence hitting the same unknown field name in two different
model types produces a duplicate-free warning list (the second call is
deduplicated process-wide). -/
theorem c5_unknown_field_warn_once_witness :
    ([("name", PyVal.str "A")] : PyDict) =
      (mergedMap ["name"] [("name", PyVal.str "A"), ("unknown_field", PyVal.int 1)]
        PyVal.none []).filter (fun kv => kv.1 ∈ ["name"]) ∧
    (runHydrations
      [⟨["name"], [("unknown_field", PyVal.int 1), ("name", PyVal.str "A")], PyVal.none, []⟩,
       ⟨["id"], [("unknown_field", PyVal.int 1), ("id", PyVal.int 2)], PyVal.none, []⟩]
      []).2.Nodup :=
  ⟨c5_unknown_field_warn_once.1 ["name"]
      [("name", PyVal.str "A"), ("unknown_field", PyVal.int 1)] PyVal.none [] []
      [("name", PyVal.str "A")] (by decide),
   (c5_unknown_field_warn_once.2
      [⟨["name"], [("unknown_field", PyVal.int 1), ("name", PyVal.str "A")], PyVal.none, []⟩,
       ⟨["id"], [("unknown_field", PyVal.int 1), ("id", PyVal.int 2)], PyVal.none, []⟩]
      []).1⟩

/-- **C10.** An input key that starts with an underscore and is not an
accepted field is swept out silently during hydration: it is never
warned about, it is never added to the process-wide `IGNORED_KEYS`
list (it is in the updated list only if it already was before the
call), and it never reaches the constructor arguments. -/
theorem c10_underscore_keys_silent (attrs : List String) (data : PyDict)
    (client : PyVal) (kwargs : PyDict) (ig : List String) (k : String)
    (hu : underscoreFirst k = true) (hk : k ∉ attrs) :
    k ∉ (new_from_dict attrs data client kwargs ig).warnings ∧
    (k ∈ (new_from_dict attrs data client kwargs ig).ignored ↔ k ∈ ig) ∧
    (∀ jd, (new_from_dict attrs data client kwargs ig).ctorArgs = some jd →
        ∀ v, (k, v) ∉ jd) := by
  obtain ⟨hig, hnd, hni⟩ := new_from_dict_ignored_warnings attrs data client kwargs ig
  have hkw : k ∉ (new_from_dict attrs data client kwargs ig).warnings := by
    intro hmem
    have h2 := (hni k hmem).2.1
    rw [hu] at h2
    exact Bool.noConfusion h2
  refine ⟨hkw, ?_, ?_⟩
  · rw [hig]
    simp [List.mem_append, hkw]
  · intro jd h v hmem
    have hj := new_from_dict_ctorArgs h
    rw [hj] at hmem
    have hp := List.of_mem_filter hmem
    simp only [decide_eq_true_eq] at hp
    exact hk hp

/-- Witness for C10: hydrating a mapping that carries the unknown
underscore key `_hidden` warns about nothing, leaves `IGNORED_KEYS`
empty, and keeps `_hidden` out of the constructor arguments. -/
theorem c10_underscore_keys_silent_witness :
    "_hidden" ∉ (new_from_dict ["name"] [("name", PyVal.str "A"), ("_hidden", PyVal.int 1)]
        PyVal.none [] []).warnings ∧
    ("_hidden" ∈ (new_from_dict ["name"] [("name", PyVal.str "A"), ("_hidden", PyVal.int 1)]
        PyVal.none [] []).ignored ↔ "_hidden" ∈ ([] : List String)) ∧
    (∀ jd, (new_from_dict ["name"] [("name", PyVal.str "A"), ("_hidden", PyVal.int 1)]
        PyVal.none [] []).ctorArgs = some jd →
        ∀ v, ("_hidden", v) ∉ jd) :=
  c10_underscore_keys_silent ["name"] [("name", PyVal.str "A"), ("_hidden", PyVal.int 1)]
    PyVal.none [] [] "_hidden" (by decide) (by decide)

/-- **C9 (counterexample).** `new_from_dict` does bind `_client` in the
caller's mapping, but the claim's conclusion that the argument mapping
afterwards *differs* from what the caller passed in is false: when the
caller's mapping already binds `_client` to the same client reference
(here `None`, the factory's own default), the mapping is unchanged. -/
theorem c9_caller_mutation_counterexample :
    (new_from_dict ["_client", "name"] [("_client", PyVal.none)] PyVal.none [] []).callerData =
      [("_client", PyVal.none)] := by
  decide

/-- **C9 (amended).** When the target model type accepts a `_client`
constructor parameter and the caller's mapping is nonempty, hydration
sets the key `_client` to the passed client reference in the caller's
own mapping (before it is copied) — so the mapping afterwards differs
from what was passed exactly when it did not already carry that
binding; when the mapping is empty, or the model does not accept
`_client`, the caller's mapping is left untouched. -/
theorem c9_caller_mutation_amended (attrs : List String) (data : PyDict)
    (client : PyVal) (kwargs : PyDict) (ig : List String) :
    (data ≠ [] → "_client" ∈ attrs →
        (new_from_dict attrs data client kwargs ig).callerData =
          dictSet data "_client" client) ∧
    (data = [] ∨ "_client" ∉ attrs →
        (new_from_dict attrs data client kwargs ig).callerData = data) := by
  constructor
  · intro hne hcl
    unfold new_from_dict
    rw [if_neg hne]
    rcases hr : dropUnknown attrs (mergedMap attrs data client kwargs) ig with ⟨jd, ig2, ws⟩
    show withClient attrs data client = dictSet data "_client" client
    unfold withClient
    rw [if_pos hcl]
  · intro h
    by_cases hne : data = []
    · unfold new_from_dict
      rw [if_pos hne]
    · rcases h with h | hncl
      · exact absurd h hne
      · unfold new_from_dict
        rw [if_neg hne]
        rcases hr : dropUnknown attrs (mergedMap attrs data client kwargs) ig with ⟨jd, ig2, ws⟩
        show withClient attrs data client = data
        unfold withClient
        rw [if_neg hncl]

/-- Witness for C9 (amended): a nonempty mapping without a `_client`
binding, hydrated into a `_client`-accepting type, gains the binding in
place; and a type without `_client` leaves the mapping untouched. -/
theorem c9_caller_mutation_amended_witness :
    (new_from_dict ["_client", "name"] [("name", PyVal.str "X")] (PyVal.int 1) [] []).callerData =
      dictSet [("name", PyVal.str "X")] "_client" (PyVal.int 1) ∧
    (new_from_dict ["name"] [("name", PyVal.str "X")] (PyVal.int 1) [] []).callerData =
      [("name", PyVal.str "X")] :=
  ⟨(c9_caller_mutation_amended ["_client", "name"] [("name", PyVal.str "X")]
      (PyVal.int 1) [] []).1 (by decide) (by decide),
   (c9_caller_mutation_amended ["name"] [("name", PyVal.str "X")]
      (PyVal.int 1) [] []).2 (Or.inr (by decide))⟩

/-! ## Claim theorems: models -/

/-- **C2.** On any model whose construction completed through
`MeModel.__init__` (the `_MeModel__init_done` flag is truthy), *every*
attribute assignment — the mutable whitelist of base-guarded models is
empty — raises `MeException("You cannot change protected attr '<key>'
of '<Cls>'!")` and leaves the instance unchanged, so the attribute's
value after the failed assignment equals its value before. -/
theorem c2_immutable_after_init (clsName : String) (attrs : PyDict) (key : String)
    (v : PyVal) (h : truthy (dictGet attrs "_MeModel__init_done") = true) :
    memodel_setattr clsName attrs key v =
      (attrs, some (.meException ("You cannot change protected attr \x27" ++ key ++
        "\x27 of \x27" ++ clsName ++ "\x27!"))) ∧
    dictGet (memodel_setattr clsName attrs key v).1 key = dictGet attrs key := by
  constructor
  · unfold memodel_setattr; rw [if_pos h]
  · unfold memodel_setattr; rw [if_pos h]

/-- Witness for C2: a hydrated `Contact`-style instance rejects a
`name` reassignment and keeps its former value. -/
theorem c2_immutable_after_init_witness :
    memodel_setattr "Contact"
      [("name", PyVal.str "A"), ("_MeModel__init_done", PyVal.bool true)]
      "name" (PyVal.str "B") =
      ([("name", PyVal.str "A"), ("_MeModel__init_done", PyVal.bool true)],
       some (.meException "You cannot change protected attr \x27name\x27 of \x27Contact\x27!")) ∧
    dictGet (memodel_setattr "Contact"
      [("name", PyVal.str "A"), ("_MeModel__init_done", PyVal.bool true)]
      "name" (PyVal.str "B")).1 "name" =
      dictGet [("name", PyVal.str "A"), ("_MeModel__init_done", PyVal.bool true)] "name" :=
  c2_immutable_after_init "Contact"
    [("name", PyVal.str "A"), ("_MeModel__init_done", PyVal.bool true)]
    "name" (PyVal.str "B") (by decide)

/-- **C6 (code bug).** `Profile.refresh` on a `BOUND-FOREIGN` profile
(`_Profile__my_profile` hydrated as `False`) *does* raise the ownership
error: its very first statement `self.__my_profile = None` goes through
`Profile.__setattr__`, whose falsy-owner branch raises
`MeException("You cannot update profile if it's not yours!")` for every
key — before the internal-key bypass is ever reachable.  The state is
left unchanged and no replacement happens.  (Second conjunct: from a
`BOUND-SELF` profile the same `refresh` succeeds and replaces the whole
state with the fetched profile's, returning its ownership flag — so the
failure is specific to the foreign state.) -/
theorem c6_refresh_foreign_ownership_error :
    profile_refresh (fun _ _ => (false, [])) [("first_name", PyVal.str "R")]
      [("_Profile__client", PyVal.none), ("first_name", PyVal.str "A"),
       ("uuid", PyVal.str "u-1"), ("_Profile__my_profile", PyVal.bool false)] =
      ([("_Profile__client", PyVal.none), ("first_name", PyVal.str "A"),
        ("uuid", PyVal.str "u-1"), ("_Profile__my_profile", PyVal.bool false)],
       .error (.meException "You cannot update profile if it\x27s not yours!")) ∧
    profile_refresh (fun _ _ => (false, []))
      [("first_name", PyVal.str "R"), ("_Profile__my_profile", PyVal.bool true)]
      [("first_name", PyVal.str "A"), ("_Profile__my_profile", PyVal.bool true)] =
      ([("first_name", PyVal.str "R"), ("_Profile__my_profile", PyVal.bool true)],
       .ok true) := by
  exact ⟨by decide, by decide⟩

theorem mutable_field_props {key : String} (hkey : key ∈ profileMutableFields) :
    key ≠ "_Profile__my_profile" ∧ key ≠ "profile_picture" := by
  fin_cases hkey <;> exact ⟨by decide, by decide⟩

theorem profile_setattr_self (client : ProfileClient) (p : PyDict) (key : String)
    (v : PyVal) (success : Bool) (echo : PyDict)
    (hmy : dictGet p "_Profile__my_profile" = PyVal.bool true)
    (hkey : key ∈ profileMutableFields)
    (hc : client key v = (success, echo)) :
    profile_setattr client p key v =
      (if (success = true ∧ pyStr (dictGet echo key) = pyStr v) ∨ key = "profile_picture" then
         if key = "date_of_birth" then
           match parse_date true v with
           | .ok v2 => ⟨dictSet p key v2, Option.none, [(key, v)]⟩
           | .error e => ⟨p, some e, [(key, v)]⟩
         else ⟨dictSet p key v, Option.none, [(key, v)]⟩
       else
         match dictFind p key with
         | some cur => ⟨p, some (.meException ("Failed to change \x27" ++ pyStr cur ++
             "\x27 to \x27" ++ pyStr v ++ "\x27!")), [(key, v)]⟩
         | Option.none => ⟨p, some (.attributeError key), [(key, v)]⟩) := by
  obtain ⟨hk1, _⟩ := mutable_field_props hkey
  unfold profile_setattr
  rw [hmy]
  rw [if_pos (by decide : (PyVal.bool true : PyVal) ≠ PyVal.none)]
  rw [if_pos (by decide : truthy (PyVal.bool true) = true)]
  rw [if_neg hk1]
  rw [if_neg (not_not_intro hkey)]
  rw [hc]

/-- **C1 (amended).** A whitelisted field write on a `BOUND-SELF`
profile issues exactly one `update_profile_details` call with the field
and requested value; when the call reports success and the echoed field
equals the requested value as strings, the local field is committed
(with `parse_date` applied for `date_of_birth`); otherwise a
`MeException` is raised whose message contains the field's *current
(pre-write) value* and the attempted value — not the field name — and
the local state is left unchanged. -/
theorem c1_selfowned_mutation (client : ProfileClient) (p : PyDict) (key : String)
    (v cur : PyVal)
    (hmy : dictGet p "_Profile__my_profile" = PyVal.bool true)
    (hkey : key ∈ profileMutableFields)
    (hcur : dictFind p key = some cur) :
    (profile_setattr client p key v).calls = [(key, v)] ∧
    (((client key v).1 = true ∧ pyStr (dictGet (client key v).2 key) = pyStr v) →
      ((key ≠ "date_of_birth" →
          profile_setattr client p key v = ⟨dictSet p key v, Option.none, [(key, v)]⟩) ∧
       (∀ v2, key = "date_of_birth" → parse_date true v = .ok v2 →
          profile_setattr client p key v = ⟨dictSet p key v2, Option.none, [(key, v)]⟩))) ∧
    (¬((client key v).1 = true ∧ pyStr (dictGet (client key v).2 key) = pyStr v) →
      profile_setattr client p key v =
        ⟨p, some (.meException ("Failed to change \x27" ++ pyStr cur ++ "\x27 to \x27" ++
          pyStr v ++ "\x27!")), [(key, v)]⟩) := by
  obtain ⟨_, hk2⟩ := mutable_field_props hkey
  rcases hc : client key v with ⟨success, echo⟩
  have hps := profile_setattr_self client p key v success echo hmy hkey hc
  simp only [hc]
  by_cases hcommit : success = true ∧ pyStr (dictGet echo key) = pyStr v
  · rw [if_pos (Or.inl hcommit)] at hps
    refine ⟨?_, ?_, ?_⟩
    · by_cases hdob : key = "date_of_birth"
      · rw [if_pos hdob] at hps
        cases hpd : parse_date true v with
        | ok v2 => rw [hpd] at hps; rw [hps]
        | error e => rw [hpd] at hps; rw [hps]
      · rw [if_neg hdob] at hps; rw [hps]
    · intro _
      constructor
      · intro hdob
        rw [if_neg hdob] at hps; exact hps
      · intro v2 hdob hpd
        rw [if_pos hdob, hpd] at hps; exact hps
    · intro hn
      exact absurd hcommit hn
  · have hcond : ¬((success = true ∧ pyStr (dictGet echo key) = pyStr v) ∨
        key = "profile_picture") := by
      intro hor
      rcases hor with horc | horp
      · exact hcommit horc
      · exact hk2 horp
    rw [if_neg hcond, hcur] at hps
    refine ⟨by rw [hps], ?_, ?_⟩
    · intro hcontra
      exact absurd hcontra hcommit
    · intro _
      exact hps

/-- **C1 (counterexample).** On a self-owned profile with
`first_name = "A"`, requesting `first_name := "B"` while the simulated
server reports success but echoes `"C"` raises
`MeException("Failed to change 'A' to 'B'!")`: the message carries the
field's prior value and the attempted value, but does *not* name the
field (`first_name` does not occur in it), and the local state is
unchanged. -/
theorem c1_selfowned_mutation_counterexample :
    profile_setattr (fun _ _ => (true, [("first_name", PyVal.str "C")]))
      [("first_name", PyVal.str "A"), ("_Profile__my_profile", PyVal.bool true)]
      "first_name" (PyVal.str "B") =
      ⟨[("first_name", PyVal.str "A"), ("_Profile__my_profile", PyVal.bool true)],
       some (.meException "Failed to change \x27A\x27 to \x27B\x27!"),
       [("first_name", PyVal.str "B")]⟩ ∧
    strContains "Failed to change \x27A\x27 to \x27B\x27!" "first_name" = false := by
  exact ⟨by decide, by decide⟩

/-- Witness for C1 (amended): with the server echoing the requested
value, the write issues one update call and commits `first_name := "B"`
locally. -/
theorem c1_selfowned_mutation_witness :
    (profile_setattr (fun _ _ => (true, [("first_name", PyVal.str "B")]))
      [("first_name", PyVal.str "A"), ("_Profile__my_profile", PyVal.bool true)]
      "first_name" (PyVal.str "B")).calls = [("first_name", PyVal.str "B")] ∧
    profile_setattr (fun _ _ => (true, [("first_name", PyVal.str "B")]))
      [("first_name", PyVal.str "A"), ("_Profile__my_profile", PyVal.bool true)]
      "first_name" (PyVal.str "B") =
      ⟨dictSet [("first_name", PyVal.str "A"), ("_Profile__my_profile", PyVal.bool true)]
        "first_name" (PyVal.str "B"), Option.none, [("first_name", PyVal.str "B")]⟩ :=
  ⟨(c1_selfowned_mutation (fun _ _ => (true, [("first_name", PyVal.str "B")]))
      [("first_name", PyVal.str "A"), ("_Profile__my_profile", PyVal.bool true)]
      "first_name" (PyVal.str "B") (PyVal.str "A")
      (by decide) (by decide) (by decide)).1,
   ((c1_selfowned_mutation (fun _ _ => (true, [("first_name", PyVal.str "B")]))
      [("first_name", PyVal.str "A"), ("_Profile__my_profile", PyVal.bool true)]
      "first_name" (PyVal.str "B") (PyVal.str "A")
      (by decide) (by decide) (by decide)).2.1
      ⟨rfl, by decide⟩).1 (by decide)⟩

theorem asJsonPairs_key_sorted (d : PyDict) :
    ((asJsonPairs d).map Prod.fst).Sorted (· ≤ ·) := by
  have hs := List.sorted_insertionSort (fun (a b : String × PyVal) => a.1 ≤ b.1) (as_dict d)
  unfold asJsonPairs
  exact List.pairwise_map.mpr hs

theorem as_dict_Contact (pn nm dob cc : PyVal)
    (h1 : isDateLike pn = false) (h2 : isDateLike nm = false)
    (h3 : isDateLike dob = false) (h4 : isDateLike cc = false) :
    as_dict (Contact_init pn nm dob cc) =
      [("phone_number", pn), ("name", nm), ("date_of_birth", dob), ("country_code", cc)] := by
  have u1 : underscoreFirst "phone_number" = false := by decide
  have u2 : underscoreFirst "name" = false := by decide
  have u3 : underscoreFirst "date_of_birth" = false := by decide
  have u4 : underscoreFirst "country_code" = false := by decide
  have u5 : underscoreFirst "_MeModel__init_done" = true := by decide
  simp [as_dict, Contact_init, stringifyDates, u1, u2, u3, u4, u5, h1, h2, h3, h4]

theorem new_from_dict_ctorArgs_some (attrs : List String) (data : PyDict) (client : PyVal)
    (kwargs : PyDict) (ig : List String) (h : data ≠ []) :
    (new_from_dict attrs data client kwargs ig).ctorArgs =
      some ((mergedMap attrs data client kwargs).filter (fun kv => kv.1 ∈ attrs)) := by
  unfold new_from_dict
  rw [if_neg h]
  rcases hr : dropUnknown attrs (mergedMap attrs data client kwargs) ig with ⟨jd, ig2, ws⟩
  have hg := (dropUnknown_spec attrs _ ig jd ig2 ws hr).1
  exact congrArg some hg

theorem hydrate_Contact_roundtrip (pn nm dob cc : PyVal) (ig : List String)
    (h1 : isDateLike pn = false) (h2 : isDateLike nm = false)
    (h3 : isDateLike dob = false) (h4 : isDateLike cc = false) :
    hydrate_Contact (as_dict (Contact_init pn nm dob cc)) [] ig =
      .ok (some (Contact_init pn nm dob cc)) := by
  rw [as_dict_Contact pn nm dob cc h1 h2 h3 h4]
  unfold hydrate_Contact
  rw [new_from_dict_ctorArgs_some _ _ _ _ _ (by simp)]
  have hm : mergedMap contactAttrs
      [("phone_number", pn), ("name", nm), ("date_of_birth", dob), ("country_code", cc)]
      PyVal.none [] =
      [("phone_number", pn), ("name", nm), ("date_of_birth", dob), ("country_code", cc)] := by
    unfold mergedMap applyKwargs withClient
    rw [if_neg (by decide : ¬(("_client" : String) ∈ contactAttrs))]
    rfl
  rw [hm]
  have hf : ([("phone_number", pn), ("name", nm), ("date_of_birth", dob),
      ("country_code", cc)] : PyDict).filter (fun kv => kv.1 ∈ contactAttrs) =
      [("phone_number", pn), ("name", nm), ("date_of_birth", dob), ("country_code", cc)] := by
    simp [List.filter_cons, contactAttrs]
  rw [hf]
  show (Contact_from_kwargs _).map some = _
  simp only [Contact_from_kwargs, dictFind, dictGet, Contact_init]
  rfl

/-! ## Claim theorems: serialization round-trip -/

/-- **C8 (amended).** `as_json` serializes the sorted `as_dict` pair
list, whose top-level keys are lexicographically sorted (first
conjunct, for every instance dictionary); and re-hydrating the
`as_dict` mapping reproduces an equal (indeed identical) instance for
a hydrated `Contact` whose field values are not date/datetime objects
(second conjunct).  The restriction is forced: an instance with a
populated datetime field cannot be re-hydrated, because `str()` of a
datetime is not in `parse_date`'s accepted input format — see the
counterexample. -/
theorem c8_as_json_sorted_roundtrip :
    (∀ d : PyDict, ((asJsonPairs d).map Prod.fst).Sorted (· ≤ ·)) ∧
    (∀ (pn nm dob cc : PyVal) (ig : List String),
        isDateLike pn = false → isDateLike nm = false →
        isDateLike dob = false → isDateLike cc = false →
        hydrate_Contact (as_dict (Contact_init pn nm dob cc)) [] ig =
          .ok (some (Contact_init pn nm dob cc))) :=
  ⟨asJsonPairs_key_sorted, fun pn nm dob cc ig h1 h2 h3 h4 =>
     hydrate_Contact_roundtrip pn nm dob cc ig h1 h2 h3 h4⟩

/-- **C8 (counterexample).** A `Notification` hydrated with
`created_at = "2021-08-24T10:02:45Z"` holds a datetime value; its
`as_dict` stringifies it to `"2021-08-24 10:02:45+00:00"` (space
separator, `+00:00` offset), and re-hydrating that mapping raises
`ValueError` inside `parse_date` instead of producing an equal
instance — refuting the round-trip for datetime-carrying models. -/
theorem c8_roundtrip_counterexample :
    hydrate_Notification
      [("id", PyVal.int 1), ("created_at", PyVal.str "2021-08-24T10:02:45Z"),
       ("modified_at", PyVal.none), ("is_read", PyVal.bool false),
       ("sender", PyVal.str "u-2"), ("status", PyVal.str "distributed"),
       ("delivery_method", PyVal.str "push"), ("distribution_date", PyVal.none),
       ("message_subject", PyVal.none), ("message_category", PyVal.str "NEW_COMMENT"),
       ("message_body", PyVal.none), ("message_lang", PyVal.str "en"),
       ("category", PyVal.str "NEW_COMMENT")] PyVal.none [] [] =
      .ok (some
        [("_Notification__client", PyVal.none), ("id", PyVal.int 1),
         ("created_at", PyVal.datetime 2021 8 24 10 2 45 0),
         ("modified_at", PyVal.none), ("is_read", PyVal.bool false),
         ("sender", PyVal.str "u-2"), ("status", PyVal.str "distributed"),
         ("delivery_method", PyVal.str "push"), ("distribution_date", PyVal.none),
         ("message_subject", PyVal.none), ("message_category", PyVal.str "NEW_COMMENT"),
         ("message_body", PyVal.none), ("message_lang", PyVal.str "en"),
         ("name", PyVal.none), ("uuid", PyVal.none), ("category", PyVal.str "NEW_COMMENT"),
         ("new_name", PyVal.none), ("phone_number", PyVal.none),
         ("notification_id", PyVal.none), ("profile_picture", PyVal.none),
         ("tag", PyVal.none), ("_Notification__init_done", PyVal.bool true)]) ∧
    hydrate_Notification
      (as_dict
        [("_Notification__client", PyVal.none), ("id", PyVal.int 1),
         ("created_at", PyVal.datetime 2021 8 24 10 2 45 0),
         ("modified_at", PyVal.none), ("is_read", PyVal.bool false),
         ("sender", PyVal.str "u-2"), ("status", PyVal.str "distributed"),
         ("delivery_method", PyVal.str "push"), ("distribution_date", PyVal.none),
         ("message_subject", PyVal.none), ("message_category", PyVal.str "NEW_COMMENT"),
         ("message_body", PyVal.none), ("message_lang", PyVal.str "en"),
         ("name", PyVal.none), ("uuid", PyVal.none), ("category", PyVal.str "NEW_COMMENT"),
         ("new_name", PyVal.none), ("phone_number", PyVal.none),
         ("notification_id", PyVal.none), ("profile_picture", PyVal.none),
         ("tag", PyVal.none), ("_Notification__init_done", PyVal.bool true)])
      PyVal.none [] [] =
      .error (.valueError
        "time data \x272021-08-24 10:02:45+00:00\x27 does not match format \x27%Y-%m-%dT%H:%M:%S%z\x27") := by
  exact ⟨by decide, by decide⟩

/-- Witness for C8 (amended): sorted keys on a concrete two-field
dictionary, and the concrete `Contact` round-trip from the spec's own
example values. -/
theorem c8_as_json_sorted_roundtrip_witness :
    ((asJsonPairs [("b", PyVal.int 1), ("a", PyVal.int 2)]).map Prod.fst).Sorted (· ≤ ·) ∧
    hydrate_Contact
      (as_dict (Contact_init (PyVal.int 555) (PyVal.str "A") PyVal.none PyVal.none)) [] [] =
      .ok (some (Contact_init (PyVal.int 555) (PyVal.str "A") PyVal.none PyVal.none)) :=
  ⟨c8_as_json_sorted_roundtrip.1 [("b", PyVal.int 1), ("a", PyVal.int 2)],
   c8_as_json_sorted_roundtrip.2 (PyVal.int 555) (PyVal.str "A") PyVal.none PyVal.none []
     (by decide) (by decide) (by decide) (by decide)⟩
